import Mathlib

/-!
Shallow embedding of the AICOAPP project-management backend
(`backend/server.py`) and verification of its specification claims.

Conventions of the embedding:
* Mongo ObjectIds are modelled as natural numbers handed out by a
  `next_id` counter in the store; `str(id)` round-trips are dropped and a
  single `Nat` identifier is used throughout.
* Wall-clock times (`time.time()`, `datetime.utcnow()`) are modelled as
  integers (seconds).
* Each HTTP handler becomes a function on the store; a handler that can
  raise `HTTPException(status_code=c)` returns `Except Nat α` whose error
  value is the status code `c`.  Handlers that mutate the store return the
  (possibly unchanged) store next to the `Except` so that "no mutation on
  error" is expressible.
* `passlib`'s bcrypt hash/verify pair is external to the repository; it is
  modelled as an abstract `HashScheme` parameter, and theorems that need
  the hash round-trip take `verify p (hash p) = true` as a hypothesis.
* Mongo `find(query)` becomes `List.filter`, `find_one` becomes
  `List.find?`, `delete_many` a filter, `delete_one` an `eraseP`,
  `update_one {_id: i}` a map that rewrites the document with `_id = i`
  (`_id` is unique in Mongo, so at most one document is rewritten).
  Result ordering (`sort`) is not modelled: no claim depends on it.
-/

namespace AICO

/-! ## Rate limiter (`class RateLimiter`, server.py lines 79-128)

The three dictionaries keyed by client IP are modelled as total functions
from `String`: `requests` and `login_attempts` default to `[]`
(`defaultdict(list)`), `blocked_ips` to `none` (missing key). -/

/-- Dictionary update: Python `storage[key] = value`. -/
def setKey {α : Type} (f : String → α) (k : String) (v : α) : String → α :=
  fun k' => if k' = k then v else f k'

/-- Embeds `Config.RATE_LIMIT_REQUESTS = 100`. -/
def RATE_LIMIT_REQUESTS : Nat := 100

/-- Embeds `Config.RATE_LIMIT_WINDOW = 60` seconds. -/
def RATE_LIMIT_WINDOW : Int := 60

/-- Embeds `Config.LOGIN_RATE_LIMIT = 5` attempts per window. -/
def LOGIN_RATE_LIMIT : Nat := 5

/-- In-memory state of the process-local `RateLimiter`. -/
structure RateLimiterState where
  requests : String → List Int
  login_attempts : String → List Int
  blocked_ips : String → Option Int

/-- Embeds `RateLimiter.__init__`: empty dictionaries. -/
def RateLimiterState.init : RateLimiterState :=
  { requests := fun _ => [], login_attempts := fun _ => [], blocked_ips := fun _ => none }

/-- Embeds `RateLimiter._clean_old_requests`: keep the timestamps with
`current_time - req_time < window`. -/
def clean_old_requests (now : Int) (window : Int) (l : List Int) : List Int :=
  l.filter (fun t => decide (now - t < window))

/-- Embeds `RateLimiter.is_blocked`: looks up the blocked-until timestamp; if it is
in the future the IP is blocked, otherwise the stale entry is deleted. -/
def is_blocked (s : RateLimiterState) (now : Int) (ip : String) :
    Bool × RateLimiterState :=
  match s.blocked_ips ip with
  | some until_time =>
      if now < until_time then (true, s)
      else (false, { s with blocked_ips := setKey s.blocked_ips ip none })
  | none => (false, s)

/-- Embeds `RateLimiter.block_ip`: record the expiry `now + duration`. -/
def block_ip (s : RateLimiterState) (now : Int) (ip : String) (duration : Int) :
    RateLimiterState :=
  { s with blocked_ips := setKey s.blocked_ips ip (some (now + duration)) }

/-- Embeds `RateLimiter.check_rate_limit` with the default limit (100) and window
(60s), as invoked by the middleware for every request. -/
def check_rate_limit (s : RateLimiterState) (now : Int) (ip : String) :
    Bool × RateLimiterState :=
  match is_blocked s now ip with
  | (true, s1) => (false, s1)
  | (false, s1) =>
      let cleaned := clean_old_requests now RATE_LIMIT_WINDOW (s1.requests ip)
      let s2 := { s1 with requests := setKey s1.requests ip cleaned }
      if RATE_LIMIT_REQUESTS ≤ cleaned.length then (false, s2)
      else (true, { s2 with requests := setKey s2.requests ip (cleaned ++ [now]) })

/-- Embeds `RateLimiter.check_login_limit`: prune the attempt list; at the limit,
block the IP for 300 seconds and refuse, otherwise record the attempt. -/
def check_login_limit (s : RateLimiterState) (now : Int) (ip : String) :
    Bool × RateLimiterState :=
  let cleaned := clean_old_requests now RATE_LIMIT_WINDOW (s.login_attempts ip)
  let s1 := { s with login_attempts := setKey s.login_attempts ip cleaned }
  if LOGIN_RATE_LIMIT ≤ cleaned.length then (false, block_ip s1 now ip 300)
  else (true, { s1 with login_attempts := setKey s1.login_attempts ip (cleaned ++ [now]) })

/-- Rate-limiting gate crossed by one login request: the
`rate_limit_middleware` (`check_rate_limit`) runs first; only when it
admits the request does the login handler run `check_login_limit`.
Returns whether the request is admitted past both limiters. -/
def login_rate_gate (s : RateLimiterState) (now : Int) (ip : String) :
    Bool × RateLimiterState :=
  match check_rate_limit s now ip with
  | (true, s1) => check_login_limit s1 now ip
  | (false, s1) => (false, s1)

/-! ## Document store data model -/

/-- A document of the `users` collection. -/
structure User where
  id : Nat
  email : String
  password : String
  full_name : String
  is_blocked : Bool
  last_login : Int
  deriving DecidableEq, Repr

/-- A document of the `workspaces` collection.  `member_roles` is the
role dictionary, kept as an association list of `(user id, role)`. -/
structure Workspace where
  id : Nat
  name : String
  owner_id : Nat
  member_ids : List Nat
  member_roles : List (Nat × String)
  deriving DecidableEq, Repr

/-- A document of the `projects` collection. -/
structure Project where
  id : Nat
  name : String
  description : Option String
  workspace_id : Nat
  status : String
  priority : String
  progress : Nat
  deadline : Option Int
  assigned_to : List Nat
  tags : List String
  color : Option String
  created_by : Nat
  deriving DecidableEq, Repr

/-- A document of the `tasks` collection. -/
structure Task where
  id : Nat
  title : String
  description : Option String
  project_id : Nat
  status : String
  priority : String
  assigned_to : Option Nat
  deadline : Option Int
  tags : List String
  estimated_hours : Option Nat
  parent_task_id : Option Nat
  created_by : Nat
  deriving DecidableEq, Repr

/-- A document of the `subtasks` collection. -/
structure Subtask where
  id : Nat
  title : String
  task_id : Nat
  completed : Bool
  created_by : Nat
  deriving DecidableEq, Repr

/-- A document of the `comments` collection. -/
structure Comment where
  id : Nat
  content : String
  task_id : Option Nat
  project_id : Option Nat
  request_id : Option Nat
  user_id : Nat
  deriving DecidableEq, Repr

/-- A document of the `files` collection (the base64 payload is kept as an
opaque string). -/
structure FileDoc where
  id : Nat
  name : String
  file_data : String
  project_id : Option Nat
  task_id : Option Nat
  workspace_id : Nat
  uploaded_by : Nat
  deriving DecidableEq, Repr

/-- A document of the `notes` collection. -/
structure Note where
  id : Nat
  title : String
  content : String
  workspace_id : Nat
  created_by : Nat
  deriving DecidableEq, Repr

/-- A document of the `tags` collection. -/
structure TagDoc where
  id : Nat
  name : String
  color : String
  workspace_id : Nat
  created_by : Nat
  deriving DecidableEq, Repr

/-- A document of the `favorites` collection. -/
structure Favorite where
  id : Nat
  user_id : Nat
  item_type : String
  item_id : Nat
  workspace_id : Nat
  deriving DecidableEq, Repr

/-- A document of the `requests` collection. -/
structure RequestDoc where
  id : Nat
  title : String
  workspace_id : Nat
  status : String
  created_by : Nat
  deriving DecidableEq, Repr

/-- A document of the `time_entries` collection. -/
structure TimeEntryDoc where
  id : Nat
  user_id : Nat
  workspace_id : Nat
  project_id : Option Nat
  task_id : Option Nat
  check_in : Int
  check_out : Option Int
  deriving DecidableEq, Repr

/-- A document of the `activities` collection (`log_activity`).
`workspace_id` is `none` where the source stores the empty string (the
missing-project fallback in `update_task`/`delete_task`). -/
structure Activity where
  id : Nat
  user_id : Nat
  action : String
  entity_type : String
  entity_id : Nat
  entity_name : String
  workspace_id : Option Nat
  deriving DecidableEq, Repr

/-- A document of the `notifications` collection (`send_notification`). -/
structure Notification where
  id : Nat
  user_id : Nat
  title : String
  message : String
  notification_type : String
  read : Bool
  deriving DecidableEq, Repr

/-- The document store (`db`), one list per collection, plus a counter
generating fresh ObjectIds. -/
structure Store where
  next_id : Nat
  users : List User
  workspaces : List Workspace
  projects : List Project
  tasks : List Task
  subtasks : List Subtask
  notes : List Note
  tags : List TagDoc
  favorites : List Favorite
  requests : List RequestDoc
  comments : List Comment
  files : List FileDoc
  time_entries : List TimeEntryDoc
  activities : List Activity
  notifications : List Notification
  deriving DecidableEq, Repr

/-- The empty database. -/
def Store.empty : Store :=
  { next_id := 0, users := [], workspaces := [], projects := [], tasks := []
    subtasks := [], notes := [], tags := [], favorites := [], requests := []
    comments := [], files := [], time_entries := [], activities := []
    notifications := [] }

/-- Embeds `log_activity`: append a document to the `activities` collection. -/
def log_activity (s : Store) (user_id : Nat) (action entity_type : String)
    (entity_id : Nat) (entity_name : String) (workspace_id : Option Nat) : Store :=
  { s with
    activities := s.activities ++
      [{ id := s.next_id, user_id := user_id, action := action
         entity_type := entity_type, entity_id := entity_id
         entity_name := entity_name, workspace_id := workspace_id }]
    next_id := s.next_id + 1 }

/-- Embeds `send_notification`: append a document to the `notifications`
collection with `read = False`. -/
def send_notification (s : Store) (user_id : Nat) (title message ntype : String) :
    Store :=
  { s with
    notifications := s.notifications ++
      [{ id := s.next_id, user_id := user_id, title := title
         message := message, notification_type := ntype, read := false }]
    next_id := s.next_id + 1 }

/-! ## Auth utilities (server.py lines 369-410) -/

/-- Abstract stand-in for `passlib`'s bcrypt context: `hash` is
`get_password_hash`, `verify plain hashed` is `verify_password`.  The
library itself is outside the repository; theorems that rely on the hash
round-trip assume `verify p (hash p) = true`. -/
structure HashScheme where
  hash : String → String
  verify : String → String → Bool

/-- Embeds `Config.ACCESS_TOKEN_EXPIRE_DAYS = 30`, in seconds. -/
def ACCESS_TOKEN_EXPIRE : Int := 30 * 86400

/-- Embeds `Config.REFRESH_TOKEN_EXPIRE_DAYS = 90`, in seconds. -/
def REFRESH_TOKEN_EXPIRE : Int := 90 * 86400

/-- A decoded JWT payload: `{"sub": ..., "type": ..., "exp": ...}`.  The
signature is not modelled; only tokens produced by this process are
considered. -/
structure Token where
  sub : Nat
  token_type : String
  exp : Int
  deriving DecidableEq, Repr

/-- Embeds `create_access_token({"sub": user_id})` at time `now`. -/
def create_access_token (user_id : Nat) (now : Int) : Token :=
  { sub := user_id, token_type := "access", exp := now + ACCESS_TOKEN_EXPIRE }

/-- Embeds `create_refresh_token({"sub": user_id})` at time `now`. -/
def create_refresh_token (user_id : Nat) (now : Int) : Token :=
  { sub := user_id, token_type := "refresh", exp := now + REFRESH_TOKEN_EXPIRE }

/-- Embeds `UserCreate.validate_password`: at least `MIN_PASSWORD_LENGTH = 8`
characters, one uppercase, one lowercase, one digit. -/
def validate_password (p : String) : Bool :=
  decide (8 ≤ p.length) && p.toList.any Char.isUpper && p.toList.any Char.isLower &&
    p.toList.any Char.isDigit

/-- Embeds `get_current_user`: decode the bearer token (an expired token raises
`JWTError` inside `jwt.decode`), require an access-type token, resolve the
user, and reject blocked accounts. -/
def get_current_user (s : Store) (tok : Token) (now : Int) : Except Nat User :=
  if tok.exp < now then .error 401
  else if tok.token_type ≠ "access" then .error 401
  else
    match s.users.find? (fun u => u.id = tok.sub) with
    | none => .error 401
    | some u => if u.is_blocked then .error 403 else .ok u

/-- A protected route: FastAPI resolves `Depends(get_current_user)` before
the handler body runs; an `HTTPException` raised there is the response and
the handler body never executes. -/
def runProtected {α : Type} (handler : User → Store → Except Nat α)
    (s : Store) (tok : Token) (now : Int) : Except Nat α :=
  match get_current_user s tok now with
  | .error e => .error e
  | .ok u => handler u s

/-! ## Auth routes (server.py lines 488-610) -/

/-- Response of `POST /api/auth/signup` and `POST /api/auth/login`. -/
structure AuthResponse where
  access_token : Token
  refresh_token : Token
  user_id : Nat
  deriving DecidableEq, Repr

/-- Embeds `signup` (server.py lines 488-546): login-rate check, duplicate-email
check on the lowercased email, then insert the user and their default
workspace and issue the token pair. -/
def signup (hs : HashScheme) (rl : RateLimiterState) (ip : String) (now : Int)
    (s : Store) (email password full_name : String) :
    Except Nat AuthResponse × RateLimiterState × Store :=
  match check_login_limit rl now ip with
  | (false, rl1) => (.error 429, rl1, s)
  | (true, rl1) =>
      if s.users.any (fun u => u.email = email.toLower) then (.error 400, rl1, s)
      else
        let user_id := s.next_id
        let new_user : User :=
          { id := user_id, email := email.toLower, password := hs.hash password
            full_name := full_name, is_blocked := false, last_login := now }
        let default_workspace : Workspace :=
          { id := user_id + 1, name := "Kişisel Çalışma Alanı"
            owner_id := user_id, member_ids := [user_id]
            member_roles := [(user_id, "admin")] }
        let s1 : Store :=
          { s with users := s.users ++ [new_user]
                   workspaces := s.workspaces ++ [default_workspace]
                   next_id := s.next_id + 2 }
        (.ok { access_token := create_access_token user_id now
               refresh_token := create_refresh_token user_id now
               user_id := user_id }, rl1, s1)

/-- Embeds `login` (server.py lines 548-586): login-rate check, credential check
against the stored hash, blocked-account check, `last_login` update, then
the token pair. -/
def login (hs : HashScheme) (rl : RateLimiterState) (ip : String) (now : Int)
    (s : Store) (email password : String) :
    Except Nat AuthResponse × RateLimiterState × Store :=
  match check_login_limit rl now ip with
  | (false, rl1) => (.error 429, rl1, s)
  | (true, rl1) =>
      match s.users.find? (fun u => u.email = email.toLower) with
      | none => (.error 401, rl1, s)
      | some u =>
          if ¬ hs.verify password u.password then (.error 401, rl1, s)
          else if u.is_blocked then (.error 403, rl1, s)
          else
            let s1 : Store :=
              { s with users := s.users.map (fun v =>
                  if v.id = u.id then { v with last_login := now } else v) }
            (.ok { access_token := create_access_token u.id now
                   refresh_token := create_refresh_token u.id now
                   user_id := u.id }, rl1, s1)

/-! ## Workspace routes (server.py lines 676-849) -/

/-- Embeds the role lookup `workspace.get("member_roles", default).get(user_id)`. -/
def lookupRole (roles : List (Nat × String)) (uid : Nat) : Option String :=
  (roles.find? (fun p => p.1 = uid)).map (fun p => p.2)

/-- Mongo `$set {member_roles.<uid>: role}`: overwrite the entry if the key
exists, otherwise add it. -/
def setRole (roles : List (Nat × String)) (uid : Nat) (role : String) :
    List (Nat × String) :=
  if roles.any (fun p => p.1 = uid) then
    roles.map (fun p => if p.1 = uid then (uid, role) else p)
  else roles ++ [(uid, role)]

/-- Input model `WorkspaceCreate` (validated fields only). -/
structure WorkspaceCreate where
  name : String
  deriving DecidableEq, Repr

/-- Embeds `create_workspace` (server.py lines 676-699): insert a workspace whose
owner is the acting user, with the owner as sole member and `admin` role,
then log the activity. -/
def create_workspace (s : Store) (uid : Nat) (wc : WorkspaceCreate) :
    Except Nat Workspace × Store :=
  let ws : Workspace :=
    { id := s.next_id, name := wc.name, owner_id := uid
      member_ids := [uid], member_roles := [(uid, "admin")] }
  let s1 := { s with workspaces := s.workspaces ++ [ws], next_id := s.next_id + 1 }
  let s2 := log_activity s1 uid "created" "workspace" ws.id wc.name (some ws.id)
  (.ok ws, s2)

/-- Embeds `invite_member` (server.py lines 786-826): admin-or-owner check, user
lookup by email, duplicate-membership check, then `$push member_ids` and
`$set member_roles.<uid>`, a notification and an activity record. -/
def invite_member (s : Store) (uid : Nat) (workspace_id : Nat)
    (email role : String) : Except Nat Unit × Store :=
  match s.workspaces.find? (fun w => w.id = workspace_id) with
  | none => (.error 404, s)
  | some ws =>
      if lookupRole ws.member_roles uid ≠ some "admin" ∧ ws.owner_id ≠ uid then
        (.error 403, s)
      else
        match s.users.find? (fun u => u.email = email.toLower) with
        | none => (.error 404, s)
        | some target =>
            if target.id ∈ ws.member_ids then (.error 400, s)
            else
              let s1 := { s with workspaces := s.workspaces.map (fun w =>
                if w.id = workspace_id then
                  { w with member_ids := w.member_ids ++ [target.id]
                           member_roles := setRole w.member_roles target.id role }
                else w) }
              let s2 := send_notification s1 target.id "Çalışma Alanı Daveti"
                "davet" "info"
              let s3 := log_activity s2 uid "invited" "member" target.id
                target.full_name (some workspace_id)
              (.ok (), s3)

/-- Embeds `remove_member` (server.py lines 828-849): the owner cannot be removed;
admin-or-owner check; then `$pull member_ids` and
`$unset member_roles.<uid>`. -/
def remove_member (s : Store) (uid : Nat) (workspace_id member_id : Nat) :
    Except Nat Unit × Store :=
  match s.workspaces.find? (fun w => w.id = workspace_id) with
  | none => (.error 404, s)
  | some ws =>
      if ws.owner_id = member_id then (.error 400, s)
      else if lookupRole ws.member_roles uid ≠ some "admin" ∧ ws.owner_id ≠ uid then
        (.error 403, s)
      else
        let s1 := { s with workspaces := s.workspaces.map (fun w =>
          if w.id = workspace_id then
            { w with member_ids := w.member_ids.filter (fun m => decide (m ≠ member_id))
                     member_roles := w.member_roles.filter (fun p => decide (p.1 ≠ member_id)) }
          else w) }
        (.ok (), s1)

/-- Embeds `delete_workspace` (server.py lines 768-784): only the owner may
delete; then `delete_many` on the `projects`, `requests`, `notes`, `files`
and `activities` collections by `workspace_id`, and `delete_one` on the
workspace itself.  (No other collection is touched.) -/
def delete_workspace (s : Store) (uid : Nat) (workspace_id : Nat) :
    Except Nat Unit × Store :=
  match s.workspaces.find? (fun w => w.id = workspace_id) with
  | none => (.error 404, s)
  | some ws =>
      if ws.owner_id ≠ uid then (.error 403, s)
      else
        (.ok (), { s with
          projects := s.projects.filter (fun p => decide (p.workspace_id ≠ workspace_id))
          requests := s.requests.filter (fun r => decide (r.workspace_id ≠ workspace_id))
          notes := s.notes.filter (fun n => decide (n.workspace_id ≠ workspace_id))
          files := s.files.filter (fun f => decide (f.workspace_id ≠ workspace_id))
          activities := s.activities.filter (fun a => decide (a.workspace_id ≠ some workspace_id))
          workspaces := s.workspaces.eraseP (fun w => decide (w.id = workspace_id)) })

/-! ## Project routes (server.py lines 853-1013) -/

/-- Input model `ProjectCreate`. -/
structure ProjectCreate where
  name : String
  description : Option String
  workspace_id : Nat
  status : String
  deadline : Option Int
  assigned_to : List Nat
  tags : List String
  priority : String
  progress : Nat
  color : Option String
  deriving DecidableEq, Repr

/-- Embeds `create_project` (server.py lines 853-894): the workspace must exist
and the acting user must be one of its members, otherwise 403 and the
store is untouched; on success the project is inserted, the activity is
logged and each other assignee is notified. -/
def create_project (s : Store) (uid : Nat) (pc : ProjectCreate) :
    Except Nat Project × Store :=
  match s.workspaces.find? (fun w => w.id = pc.workspace_id) with
  | none => (.error 403, s)
  | some ws =>
      if uid ∉ ws.member_ids then (.error 403, s)
      else
        let p : Project :=
          { id := s.next_id, name := pc.name, description := pc.description
            workspace_id := pc.workspace_id, status := pc.status
            priority := pc.priority, progress := pc.progress
            deadline := pc.deadline, assigned_to := pc.assigned_to
            tags := pc.tags, color := pc.color, created_by := uid }
        let s1 := { s with projects := s.projects ++ [p], next_id := s.next_id + 1 }
        let s2 := log_activity s1 uid "created" "project" p.id pc.name
          (some pc.workspace_id)
        let s3 := pc.assigned_to.foldl (fun st u =>
          if u ≠ uid then
            send_notification st u "Yeni Proje Ataması" pc.name "assignment"
          else st) s2
        (.ok p, s3)

/-- The `$set` document of `update_project` applied to the stored
project. -/
def applyProjectUpdate (p : Project) (pc : ProjectCreate) : Project :=
  { p with name := pc.name, description := pc.description, status := pc.status
           priority := pc.priority, progress := pc.progress
           deadline := pc.deadline, assigned_to := pc.assigned_to
           tags := pc.tags, color := pc.color }

/-- Embeds `update_project` (server.py lines 950-988): after the 404 check the
document is overwritten unconditionally — the handler performs no
role/ownership authorization.  New assignees are notified. -/
def update_project (s : Store) (uid : Nat) (project_id : Nat)
    (pc : ProjectCreate) : Except Nat Unit × Store :=
  match s.projects.find? (fun p => p.id = project_id) with
  | none => (.error 404, s)
  | some existing =>
      let s1 := { s with projects := s.projects.map (fun p =>
        if p.id = project_id then applyProjectUpdate p pc else p) }
      let s2 := log_activity s1 uid "updated" "project" project_id pc.name
        (some existing.workspace_id)
      let s3 := (pc.assigned_to.filter
          (fun u => decide (u ∉ existing.assigned_to))).foldl (fun st u =>
        if u ≠ uid then
          send_notification st u "Proje Ataması" pc.name "assignment"
        else st) s2
      (.ok (), s3)

/-- Embeds `delete_project` (server.py lines 990-1013): only the creator or a
workspace admin may delete; `delete_many` removes the tasks, comments and
files whose `project_id` matches, then the project itself.  (If the
project's workspace is missing the handler dereferences `None` and the
request fails with a generic 500.) -/
def delete_project (s : Store) (uid : Nat) (project_id : Nat) :
    Except Nat Unit × Store :=
  match s.projects.find? (fun p => p.id = project_id) with
  | none => (.error 404, s)
  | some p =>
      match s.workspaces.find? (fun w => w.id = p.workspace_id) with
      | none => (.error 500, s)
      | some ws =>
          if p.created_by ≠ uid ∧ lookupRole ws.member_roles uid ≠ some "admin" then
            (.error 403, s)
          else
            let s1 := { s with
              tasks := s.tasks.filter (fun t => decide (t.project_id ≠ project_id))
              comments := s.comments.filter (fun c => decide (c.project_id ≠ some project_id))
              files := s.files.filter (fun f => decide (f.project_id ≠ some project_id))
              projects := s.projects.eraseP (fun q => decide (q.id = project_id)) }
            let s2 := log_activity s1 uid "deleted" "project" project_id p.name
              (some p.workspace_id)
            (.ok (), s2)

/-! ## Task routes (server.py lines 1017-1198) -/

/-- Input model `TaskCreate`. -/
structure TaskCreate where
  title : String
  description : Option String
  project_id : Nat
  status : String
  priority : String
  assigned_to : Option Nat
  deadline : Option Int
  tags : List String
  estimated_hours : Option Nat
  parent_task_id : Option Nat
  deriving DecidableEq, Repr

/-- A query parameter against a mandatory document field: an absent
parameter matches every document. -/
def query_opt {α : Type} [DecidableEq α] (param : Option α) (field : α) : Bool :=
  match param with
  | none => true
  | some v => decide (field = v)

/-- A query parameter against an optional document field. -/
def query_opt_field {α : Type} [DecidableEq α] (param : Option α)
    (field : Option α) : Bool :=
  match param with
  | none => true
  | some v => decide (field = some v)

/-- Embeds `get_tasks` (server.py lines 1060-1087): builds a query from the
optional `project_id`/`status`/`priority`/`assigned_to` parameters and
returns the matching tasks.  The handler performs no workspace-membership
check; it only requires an authenticated user. -/
def get_tasks (s : Store) (project_id : Option Nat) (status priority : Option String)
    (assigned_to : Option Nat) : Except Nat (List Task) :=
  .ok (s.tasks.filter (fun t =>
    query_opt project_id t.project_id && query_opt status t.status &&
    query_opt priority t.priority && query_opt_field assigned_to t.assigned_to))

/-- The `$set` document of `update_task` applied to the stored task. -/
def applyTaskUpdate (t : Task) (tc : TaskCreate) : Task :=
  { t with title := tc.title, description := tc.description, status := tc.status
           priority := tc.priority, assigned_to := tc.assigned_to
           deadline := tc.deadline, tags := tc.tags
           estimated_hours := tc.estimated_hours }

/-- Embeds `update_task` (server.py lines 1117-1153): after the 404 check the
document is overwritten unconditionally — the handler performs no
role/ownership authorization.  The activity record falls back to an empty
workspace reference when the task's project is missing. -/
def update_task (s : Store) (uid : Nat) (task_id : Nat) (tc : TaskCreate) :
    Except Nat Unit × Store :=
  match s.tasks.find? (fun t => t.id = task_id) with
  | none => (.error 404, s)
  | some existing =>
      let s1 := { s with tasks := s.tasks.map (fun t =>
        if t.id = task_id then applyTaskUpdate t tc else t) }
      let ws := (s.projects.find? (fun p => p.id = existing.project_id)).map
        (fun p => p.workspace_id)
      let s2 := log_activity s1 uid "updated" "task" task_id tc.title ws
      let s3 :=
        match tc.assigned_to with
        | some a =>
            if tc.assigned_to ≠ existing.assigned_to ∧ a ≠ uid then
              send_notification s2 a "Görev Ataması" tc.title "assignment"
            else s2
        | none => s2
      (.ok (), s3)

/-! ## Comment and file list routes (server.py lines 1829-1849, 1995-2025) -/

/-- Embeds `get_comments`: optional `task_id`/`project_id`/`request_id` filters. -/
def get_comments (s : Store) (task_id project_id request_id : Option Nat) :
    Except Nat (List Comment) :=
  .ok (s.comments.filter (fun c =>
    query_opt_field task_id c.task_id && query_opt_field project_id c.project_id &&
    query_opt_field request_id c.request_id))

/-- Embeds `get_files`: mandatory `workspace_id`, optional `project_id`/`task_id`
filters (the `file_data` projection is not modelled). -/
def get_files (s : Store) (workspace_id : Nat) (project_id task_id : Option Nat) :
    Except Nat (List FileDoc) :=
  .ok (s.files.filter (fun f =>
    decide (f.workspace_id = workspace_id) && query_opt_field project_id f.project_id &&
    query_opt_field task_id f.task_id))

/-! ## Dashboard aggregation (`get_dashboard_stats`, server.py lines 1485-1529) -/

/-- Response shape of `GET /api/analytics/dashboard` (the nested
`projects_by_status` / `tasks_by_priority` / `tasks_by_status` dictionaries
are flattened into prefixed fields). -/
structure DashboardStats where
  total_projects : Nat
  active_projects : Nat
  completed_projects : Nat
  total_tasks : Nat
  pending_tasks : Nat
  in_progress_tasks : Nat
  completed_tasks : Nat
  overdue_tasks : Nat
  overdue_projects : Nat
  total_members : Nat
  projects_by_status_not_started : Nat
  projects_by_status_in_progress : Nat
  projects_by_status_on_hold : Nat
  projects_by_status_completed : Nat
  tasks_by_priority_low : Nat
  tasks_by_priority_medium : Nat
  tasks_by_priority_high : Nat
  tasks_by_priority_critical : Nat
  tasks_by_status_todo : Nat
  tasks_by_status_in_progress : Nat
  tasks_by_status_review : Nat
  tasks_by_status_done : Nat
  deriving DecidableEq, Repr

/-- The projects fetched for a workspace by the dashboard handler. -/
def workspace_projects (s : Store) (workspace_id : Nat) : List Project :=
  s.projects.filter (fun p => decide (p.workspace_id = workspace_id))

/-- The tasks fetched for a workspace by the dashboard handler:
`{"project_id": {"$in": project_ids}}`. -/
def workspace_tasks (s : Store) (workspace_id : Nat) : List Task :=
  s.tasks.filter (fun t =>
    ((workspace_projects s workspace_id).map (fun p => p.id)).contains t.project_id)

/-- Embeds `get_dashboard_stats` (server.py lines 1485-1529): membership check,
then in-memory list-filter-count aggregation over the workspace's
projects and the tasks of those projects. -/
def get_dashboard_stats (s : Store) (uid : Nat) (workspace_id : Nat) (now : Int) :
    Except Nat DashboardStats :=
  match s.workspaces.find? (fun w => w.id = workspace_id) with
  | none => .error 403
  | some ws =>
      if uid ∉ ws.member_ids then .error 403
      else
        let projects := workspace_projects s workspace_id
        let tasks := workspace_tasks s workspace_id
        .ok
          { total_projects := projects.length
            active_projects := projects.countP (fun p => p.status = "in_progress")
            completed_projects := projects.countP (fun p => p.status = "completed")
            total_tasks := tasks.length
            pending_tasks := tasks.countP (fun t => t.status = "todo")
            in_progress_tasks := tasks.countP (fun t => t.status = "in_progress")
            completed_tasks := tasks.countP (fun t => t.status = "done")
            overdue_tasks := tasks.countP (fun t =>
              match t.deadline with
              | some d => d < now ∧ t.status ≠ "done"
              | none => False)
            overdue_projects := projects.countP (fun p =>
              match p.deadline with
              | some d => d < now ∧ p.status ≠ "completed"
              | none => False)
            total_members := ws.member_ids.length
            projects_by_status_not_started := projects.countP (fun p => p.status = "not_started")
            projects_by_status_in_progress := projects.countP (fun p => p.status = "in_progress")
            projects_by_status_on_hold := projects.countP (fun p => p.status = "on_hold")
            projects_by_status_completed := projects.countP (fun p => p.status = "completed")
            tasks_by_priority_low := tasks.countP (fun t => t.priority = "low")
            tasks_by_priority_medium := tasks.countP (fun t => t.priority = "medium")
            tasks_by_priority_high := tasks.countP (fun t => t.priority = "high")
            tasks_by_priority_critical := tasks.countP (fun t => t.priority = "critical")
            tasks_by_status_todo := tasks.countP (fun t => t.status = "todo")
            tasks_by_status_in_progress := tasks.countP (fun t => t.status = "in_progress")
            tasks_by_status_review := tasks.countP (fun t => t.status = "review")
            tasks_by_status_done := tasks.countP (fun t => t.status = "done") }

/-! ## Reachability by the workspace-membership operations -/

/-- Stores reachable from the empty database by the operations that touch
workspace membership: `signup` (which creates the default workspace),
`create_workspace`, `invite_member` and `remove_member`.  Failed requests
leave the store unchanged, so only successful transitions appear. -/
inductive ReachableStore : Store → Prop
  | init : ReachableStore Store.empty
  | signup_step (s : Store) (hs : HashScheme) (rl : RateLimiterState)
      (ip : String) (now : Int) (email password full_name : String)
      (r : AuthResponse) (rl' : RateLimiterState) (s' : Store) :
      ReachableStore s →
      signup hs rl ip now s email password full_name = (.ok r, rl', s') →
      ReachableStore s'
  | create_workspace_step (s : Store) (uid : Nat) (wc : WorkspaceCreate)
      (w : Workspace) (s' : Store) :
      ReachableStore s →
      create_workspace s uid wc = (.ok w, s') →
      ReachableStore s'
  | invite_member_step (s : Store) (uid workspace_id : Nat) (email role : String)
      (s' : Store) :
      ReachableStore s →
      invite_member s uid workspace_id email role = (.ok (), s') →
      ReachableStore s'
  | remove_member_step (s : Store) (uid workspace_id member_id : Nat) (s' : Store) :
      ReachableStore s →
      remove_member s uid workspace_id member_id = (.ok (), s') →
      ReachableStore s'

/-- The membership invariant of one workspace document: the owner is in
the member-id list, and every key of the role map is in the member-id
list. -/
def WorkspaceInv (w : Workspace) : Prop :=
  w.owner_id ∈ w.member_ids ∧ ∀ p ∈ w.member_roles, p.1 ∈ w.member_ids

/-! ## Helper lemmas -/

theorem log_activity_tasks (s : Store) (a : Nat) (b c : String) (d : Nat)
    (e : String) (f : Option Nat) : (log_activity s a b c d e f).tasks = s.tasks := rfl

theorem log_activity_comments (s : Store) (a : Nat) (b c : String) (d : Nat)
    (e : String) (f : Option Nat) : (log_activity s a b c d e f).comments = s.comments := rfl

theorem log_activity_files (s : Store) (a : Nat) (b c : String) (d : Nat)
    (e : String) (f : Option Nat) : (log_activity s a b c d e f).files = s.files := rfl

theorem log_activity_projects (s : Store) (a : Nat) (b c : String) (d : Nat)
    (e : String) (f : Option Nat) : (log_activity s a b c d e f).projects = s.projects := rfl

theorem log_activity_workspaces (s : Store) (a : Nat) (b c : String) (d : Nat)
    (e : String) (f : Option Nat) : (log_activity s a b c d e f).workspaces = s.workspaces := rfl

theorem log_activity_users (s : Store) (a : Nat) (b c : String) (d : Nat)
    (e : String) (f : Option Nat) : (log_activity s a b c d e f).users = s.users := rfl

theorem send_notification_projects (s : Store) (a : Nat) (b c d : String) :
    (send_notification s a b c d).projects = s.projects := rfl

theorem send_notification_tasks (s : Store) (a : Nat) (b c d : String) :
    (send_notification s a b c d).tasks = s.tasks := rfl

theorem send_notification_workspaces (s : Store) (a : Nat) (b c d : String) :
    (send_notification s a b c d).workspaces = s.workspaces := rfl

theorem send_notification_users (s : Store) (a : Nat) (b c d : String) :
    (send_notification s a b c d).users = s.users := rfl

/-- Notification fan-out loops leave the `projects` collection alone. -/
theorem foldl_notify_projects (l : List Nat) (uid : Nat) (ti msg ty : String)
    (st : Store) :
    ((l.foldl (fun acc u =>
      if u ≠ uid then send_notification acc u ti msg ty else acc) st)).projects =
      st.projects := by
  induction l generalizing st with
  | nil => rfl
  | cons b t ih =>
      simp only [List.foldl_cons]
      rw [ih]
      by_cases hb : b ≠ uid
      · rw [if_pos hb]; rfl
      · rw [if_neg hb]

/-- Notification fan-out loops leave the `tasks` collection alone. -/
theorem foldl_notify_tasks (l : List Nat) (uid : Nat) (ti msg ty : String)
    (st : Store) :
    ((l.foldl (fun acc u =>
      if u ≠ uid then send_notification acc u ti msg ty else acc) st)).tasks =
      st.tasks := by
  induction l generalizing st with
  | nil => rfl
  | cons b t ih =>
      simp only [List.foldl_cons]
      rw [ih]
      by_cases hb : b ≠ uid
      · rw [if_pos hb]; rfl
      · rw [if_neg hb]

/-- A `find?` commutes with a `map` whose function preserves the predicate. -/
theorem find?_map_of_pred_preserved {α : Type} (l : List α) (p : α → Bool)
    (f : α → α) (a : α) (hf : ∀ x, p (f x) = p x) (h : l.find? p = some a) :
    (l.map f).find? p = some (f a) := by
  induction l with
  | nil => simp at h
  | cons b t ih =>
      simp only [List.map_cons, List.find?_cons] at h ⊢
      rw [hf]
      cases hp : p b with
      | true => rw [hp] at h; simp at h ⊢; rw [h]
      | false => rw [hp] at h; exact ih h

/-! ## C1: deleting a project removes its tasks, comments and files -/

/-- Claim C1: After `delete_project` succeeds, no task, comment or file
referencing the deleted project id remains in the store, so the list
endpoints `get_tasks`, `get_comments` and `get_files` filtered by that
project id all return the empty list. -/
theorem delete_project_cascades (s : Store) (uid pid : Nat) (s' : Store)
    (h : delete_project s uid pid = (.ok (), s')) :
    (∀ t ∈ s'.tasks, t.project_id ≠ pid) ∧
    (∀ c ∈ s'.comments, c.project_id ≠ some pid) ∧
    (∀ f ∈ s'.files, f.project_id ≠ some pid) ∧
    get_tasks s' (some pid) none none none = .ok [] ∧
    get_comments s' none (some pid) none = .ok [] ∧
    (∀ wsid, get_files s' wsid (some pid) none = .ok []) := by
  simp only [delete_project] at h
  split at h
  · simp at h
  · rename_i p hp
    split at h
    · simp at h
    · rename_i ws hws
      split at h
      · simp at h
      · simp only [Prod.mk.injEq, true_and] at h
        subst h
        rw [log_activity_tasks, log_activity_comments, log_activity_files]
        have htasks : ∀ t ∈ s.tasks.filter (fun t => decide (t.project_id ≠ pid)),
            t.project_id ≠ pid := by
          intro t ht
          have := (List.mem_filter.mp ht).2
          simpa using this
        have hcom : ∀ c ∈ s.comments.filter (fun c => decide (c.project_id ≠ some pid)),
            c.project_id ≠ some pid := by
          intro c hc
          have := (List.mem_filter.mp hc).2
          simpa using this
        have hfil : ∀ f ∈ s.files.filter (fun f => decide (f.project_id ≠ some pid)),
            f.project_id ≠ some pid := by
          intro f hf
          have := (List.mem_filter.mp hf).2
          simpa using this
        refine ⟨htasks, hcom, hfil, ?_, ?_, ?_⟩
        · simp only [get_tasks, Except.ok.injEq]
          rw [List.filter_eq_nil_iff]
          intro t ht
          simp [query_opt, query_opt_field, htasks t ht]
        · simp only [get_comments, Except.ok.injEq]
          rw [List.filter_eq_nil_iff]
          intro c hc
          simp [query_opt_field, hcom c hc]
        · intro wsid
          simp only [get_files, Except.ok.injEq]
          rw [List.filter_eq_nil_iff]
          intro f hf
          simp [query_opt_field, hfil f hf]

/-- Concrete witness input for C1: one workspace, one project with a task,
a project-scoped comment and a project-scoped file. -/
def C1store : Store :=
  { next_id := 9
    users := [{ id := 0, email := "o@x.com", password := "h", full_name := "O"
                is_blocked := false, last_login := 0 }]
    workspaces := [{ id := 1, name := "W", owner_id := 0, member_ids := [0]
                     member_roles := [(0, "admin")] }]
    projects := [{ id := 2, name := "P", description := none, workspace_id := 1
                   status := "not_started", priority := "medium", progress := 0
                   deadline := none, assigned_to := [], tags := [], color := none
                   created_by := 0 }]
    tasks := [{ id := 3, title := "T", description := none, project_id := 2
                status := "todo", priority := "medium", assigned_to := none
                deadline := none, tags := [], estimated_hours := none
                parent_task_id := none, created_by := 0 }]
    subtasks := [], notes := [], tags := [], favorites := [], requests := []
    comments := [{ id := 7, content := "c", task_id := none, project_id := some 2
                   request_id := none, user_id := 0 }]
    files := [{ id := 8, name := "f", file_data := "", project_id := some 2
                task_id := none, workspace_id := 1, uploaded_by := 0 }]
    time_entries := [], activities := [], notifications := [] }

/-- Witness for C1 at a concrete store. -/
theorem delete_project_cascades_witness :
    (∀ t ∈ (delete_project C1store 0 2).2.tasks, t.project_id ≠ 2) ∧
    get_tasks (delete_project C1store 0 2).2 (some 2) none none none = .ok [] := by
  have h : delete_project C1store 0 2 = (.ok (), (delete_project C1store 0 2).2) := by
    constructor
  have := delete_project_cascades C1store 0 2 (delete_project C1store 0 2).2 h
  exact ⟨this.1, this.2.2.2.1⟩

/-! ## C2: workspace deletion does not cascade to every dependent collection -/

/-- Concrete input exhibiting the C2 gap: a workspace with a project, a
task under the project, a subtask and comment under the task, and a tag,
favorite and time entry scoped to the workspace. -/
def C2store : Store :=
  { next_id := 9
    users := [{ id := 0, email := "o@x.com", password := "h", full_name := "O"
                is_blocked := false, last_login := 0 }]
    workspaces := [{ id := 1, name := "W", owner_id := 0, member_ids := [0]
                     member_roles := [(0, "admin")] }]
    projects := [{ id := 2, name := "P", description := none, workspace_id := 1
                   status := "not_started", priority := "medium", progress := 0
                   deadline := none, assigned_to := [], tags := [], color := none
                   created_by := 0 }]
    tasks := [{ id := 3, title := "T", description := none, project_id := 2
                status := "todo", priority := "medium", assigned_to := none
                deadline := none, tags := [], estimated_hours := none
                parent_task_id := none, created_by := 0 }]
    subtasks := [{ id := 4, title := "S", task_id := 3, completed := false
                   created_by := 0 }]
    notes := []
    tags := [{ id := 5, name := "g", color := "#000000", workspace_id := 1
               created_by := 0 }]
    favorites := [{ id := 6, user_id := 0, item_type := "project", item_id := 2
                    workspace_id := 1 }]
    requests := []
    comments := [{ id := 7, content := "c", task_id := some 3, project_id := none
                   request_id := none, user_id := 0 }]
    files := []
    time_entries := [{ id := 8, user_id := 0, workspace_id := 1
                       project_id := some 2, task_id := none, check_in := 0
                       check_out := none }]
    activities := [], notifications := [] }

/-- Claim C2 (code bug): `delete_workspace` succeeds on `C2store` yet leaves the
workspace's task, subtask, comment, tag, favorite and time entry in the
store: the cascade covers only the `projects`, `requests`, `notes`,
`files` and `activities` collections, contradicting the claim that every
dependent document is removed. -/
theorem delete_workspace_leaves_orphans :
    (delete_workspace C2store 0 1).1 = .ok () ∧
    (delete_workspace C2store 0 1).2.projects = [] ∧
    (delete_workspace C2store 0 1).2.workspaces = [] ∧
    (delete_workspace C2store 0 1).2.tasks = C2store.tasks ∧
    (delete_workspace C2store 0 1).2.subtasks = C2store.subtasks ∧
    (delete_workspace C2store 0 1).2.comments = C2store.comments ∧
    (delete_workspace C2store 0 1).2.tags = C2store.tags ∧
    (delete_workspace C2store 0 1).2.favorites = C2store.favorites ∧
    (delete_workspace C2store 0 1).2.time_entries = C2store.time_entries ∧
    C2store.tasks ≠ [] ∧ C2store.tags ≠ [] ∧ C2store.time_entries ≠ [] := by
  refine ⟨rfl, rfl, rfl, rfl, rfl, rfl, rfl, rfl, rfl, ?_, ?_, ?_⟩ <;> decide

/-! ## C3: membership guard on create-project, but none on list-tasks -/

/-- Concrete input for C3/C4: user 1 is authenticated but is neither a
member, nor an admin, nor the owner, nor the creator of anything in
workspace 2. -/
def C3store : Store :=
  { next_id := 9
    users := [{ id := 0, email := "o@x.com", password := "h", full_name := "O"
                is_blocked := false, last_login := 0 },
              { id := 1, email := "i@x.com", password := "h", full_name := "I"
                is_blocked := false, last_login := 0 }]
    workspaces := [{ id := 2, name := "W", owner_id := 0, member_ids := [0]
                     member_roles := [(0, "admin")] }]
    projects := [{ id := 3, name := "P", description := none, workspace_id := 2
                   status := "not_started", priority := "medium", progress := 0
                   deadline := none, assigned_to := [], tags := [], color := none
                   created_by := 0 }]
    tasks := [{ id := 4, title := "T", description := none, project_id := 3
                status := "todo", priority := "medium", assigned_to := none
                deadline := none, tags := [], estimated_hours := none
                parent_task_id := none, created_by := 0 }]
    subtasks := [], notes := [], tags := [], favorites := [], requests := []
    comments := [], files := [], time_entries := [], activities := []
    notifications := [] }

/-- Claim C3 counterexample: User 1 is not a member of any workspace of
`C3store`, yet an authenticated `GET /api/tasks?project_id=3` request from
user 1 succeeds and returns workspace 2's task list instead of failing
with a forbidden error: `get_tasks` performs no membership check. -/
theorem get_tasks_nonmember_succeeds :
    (∀ w ∈ C3store.workspaces, (1 : Nat) ∉ w.member_ids) ∧
    runProtected (fun _ st => get_tasks st (some 3) none none none) C3store
      { sub := 1, token_type := "access", exp := 100 } 0 = .ok C3store.tasks := by
  constructor
  · decide
  · rfl

/-- Claim C3 as amended: A non-member creating a project in the workspace
receives 403 and the store is unchanged; listing tasks, however, is not
membership-guarded: for every user the query succeeds and returns every
task of the requested project. -/
theorem create_project_forbidden_get_tasks_unguarded
    (s : Store) (uid : Nat) (pc : ProjectCreate) (ws : Workspace)
    (hws : s.workspaces.find? (fun w => w.id = pc.workspace_id) = some ws)
    (hmem : uid ∉ ws.member_ids) :
    create_project s uid pc = (.error 403, s) ∧
    ∀ pid, ∃ l, get_tasks s (some pid) none none none = .ok l ∧
      ∀ t ∈ s.tasks, t.project_id = pid → t ∈ l := by
  constructor
  · simp only [create_project, hws, if_pos hmem]
  · intro pid
    refine ⟨_, rfl, fun t ht hpid => List.mem_filter.mpr ⟨ht, ?_⟩⟩
    simp [query_opt, query_opt_field, hpid]

/-- Input used by the C3/C4 witnesses. -/
def C3pc : ProjectCreate :=
  { name := "N", description := none, workspace_id := 2, status := "not_started"
    deadline := none, assigned_to := [], tags := [], priority := "medium"
    progress := 0, color := none }

/-- Witness for the amended C3 at a concrete non-member request. -/
theorem create_project_forbidden_get_tasks_unguarded_witness :
    create_project C3store 1 C3pc = (.error 403, C3store) ∧
    ∀ pid, ∃ l, get_tasks C3store (some pid) none none none = .ok l ∧
      ∀ t ∈ C3store.tasks, t.project_id = pid → t ∈ l :=
  create_project_forbidden_get_tasks_unguarded C3store 1 C3pc
    { id := 2, name := "W", owner_id := 0, member_ids := [0]
      member_roles := [(0, "admin")] } (by rfl) (by decide)

/-! ## C4: update handlers perform no authorization check -/

/-- Update payload used by the C4 counterexample. -/
def C4pc : ProjectCreate :=
  { name := "hacked", description := none, workspace_id := 2
    status := "in_progress", deadline := none, assigned_to := [], tags := []
    priority := "high", progress := 50, color := none }

/-- Claim C4 counterexample: User 1 is neither workspace owner, nor admin,
nor the creator of project 3, yet `update_project` succeeds and overwrites
the project, contradicting the claim that the update fails with an
authorization error and leaves the entity unchanged. -/
theorem update_project_unauthorized_succeeds :
    (∀ w ∈ C3store.workspaces,
       w.owner_id ≠ 1 ∧ lookupRole w.member_roles 1 ≠ some "admin") ∧
    (∀ p ∈ C3store.projects, p.created_by ≠ 1) ∧
    (update_project C3store 1 3 C4pc).1 = .ok () ∧
    (update_project C3store 1 3 C4pc).2.projects.map (fun p => p.name) = ["hacked"] := by
  refine ⟨by decide, by decide, rfl, rfl⟩

/-- Claim C4 as amended: For every existing project (resp. task) and every
authenticated user, `update_project` (resp. `update_task`) succeeds and
overwrites the entity with the request payload: the handlers check only
existence, not authorization. -/
theorem update_without_authorization
    (s : Store) (uid pid : Nat) (pc : ProjectCreate) (existing : Project)
    (hfind : s.projects.find? (fun p => decide (p.id = pid)) = some existing) :
    (update_project s uid pid pc).1 = .ok () ∧
    (update_project s uid pid pc).2.projects.find? (fun p => decide (p.id = pid)) =
      some (applyProjectUpdate existing pc) ∧
    ∀ tid tc (et : Task), s.tasks.find? (fun t => decide (t.id = tid)) = some et →
      (update_task s uid tid tc).1 = .ok () ∧
      (update_task s uid tid tc).2.tasks.find? (fun t => decide (t.id = tid)) =
        some (applyTaskUpdate et tc) := by
  have hpid : existing.id = pid := by
    have := List.find?_some hfind
    simpa using this
  refine ⟨?_, ?_, ?_⟩
  · simp only [update_project, hfind]
  · simp only [update_project, hfind]
    rw [foldl_notify_projects, log_activity_projects]
    have := find?_map_of_pred_preserved s.projects
      (fun p => decide (p.id = pid))
      (fun p => if p.id = pid then applyProjectUpdate p pc else p)
      existing ?_ hfind
    · rw [this]
      simp only [hpid, if_true, reduceIte]
    · intro x
      by_cases hx : x.id = pid
      · simp only [if_pos hx]
        have : (applyProjectUpdate x pc).id = x.id := rfl
        rw [this]
      · simp only [if_neg hx]
  · intro tid tc et hft
    have htid : et.id = tid := by
      have := List.find?_some hft
      simpa using this
    constructor
    · simp only [update_task, hft]
    · simp only [update_task, hft]
      have hmap := find?_map_of_pred_preserved s.tasks
        (fun t => decide (t.id = tid))
        (fun t => if t.id = tid then applyTaskUpdate t tc else t)
        et ?_ hft
      · cases hassign : tc.assigned_to with
        | none =>
            simp only [hassign]
            rw [log_activity_tasks, hmap]
            simp only [htid, if_true, reduceIte]
        | some a =>
            simp only [hassign]
            split
            · rw [send_notification_tasks, log_activity_tasks, hmap]
              simp only [htid, if_true, reduceIte]
            · rw [log_activity_tasks, hmap]
              simp only [htid, if_true, reduceIte]
      · intro x
        by_cases hx : x.id = tid
        · simp only [if_pos hx]
          have : (applyTaskUpdate x tc).id = x.id := rfl
          rw [this]
        · simp only [if_neg hx]

/-- Witness for the amended C4 at a concrete unauthorized update. -/
theorem update_without_authorization_witness :
    (update_project C3store 1 3 C4pc).1 = .ok () ∧
    (update_project C3store 1 3 C4pc).2.projects.find? (fun p => decide (p.id = 3)) =
      some (applyProjectUpdate
        { id := 3, name := "P", description := none, workspace_id := 2
          status := "not_started", priority := "medium", progress := 0
          deadline := none, assigned_to := [], tags := [], color := none
          created_by := 0 } C4pc) ∧
    ∀ tid tc (et : Task), C3store.tasks.find? (fun t => decide (t.id = tid)) = some et →
      (update_task C3store 1 tid tc).1 = .ok () ∧
      (update_task C3store 1 tid tc).2.tasks.find? (fun t => decide (t.id = tid)) =
        some (applyTaskUpdate et tc) :=
  update_without_authorization C3store 1 3 C4pc
    { id := 3, name := "P", description := none, workspace_id := 2
      status := "not_started", priority := "medium", progress := 0
      deadline := none, assigned_to := [], tags := [], color := none
      created_by := 0 } (by rfl)

/-! ## C5: dashboard totals are internally consistent -/

/-- A task list whose statuses come from the status enum splits exactly
into the five per-status counts. -/
theorem length_eq_sum_status_counts (l : List Task)
    (h : ∀ t ∈ l, t.status = "todo" ∨ t.status = "in_progress" ∨
      t.status = "review" ∨ t.status = "done" ∨ t.status = "cancelled") :
    l.length = l.countP (fun t => t.status = "todo") +
      l.countP (fun t => t.status = "in_progress") +
      l.countP (fun t => t.status = "done") +
      l.countP (fun t => t.status = "review") +
      l.countP (fun t => t.status = "cancelled") := by
  induction l with
  | nil => simp
  | cons a t ih =>
      have ha := h a (List.mem_cons_self a t)
      have ht : ∀ x ∈ t, x.status = "todo" ∨ x.status = "in_progress" ∨
          x.status = "review" ∨ x.status = "done" ∨ x.status = "cancelled" :=
        fun x hx => h x (List.mem_cons_of_mem a hx)
      simp only [List.length_cons, List.countP_cons]
      rcases ha with h1 | h1 | h1 | h1 | h1 <;> rw [ih ht] <;> simp [h1] <;> omega

/-- Claim C5: When every stored task status is drawn from the
`todo`/`in_progress`/`review`/`done`/`cancelled` enum, the dashboard's
`total_tasks` equals `pending + in_progress + completed` plus the counts
of the two remaining statuses (`review` from the response's
`tasks_by_status` and the `cancelled` count over the same fetched task
list). -/
theorem dashboard_totals_consistent (s : Store) (uid wsid : Nat) (now : Int)
    (st : DashboardStats)
    (hstat : ∀ t ∈ s.tasks, t.status = "todo" ∨ t.status = "in_progress" ∨
      t.status = "review" ∨ t.status = "done" ∨ t.status = "cancelled")
    (h : get_dashboard_stats s uid wsid now = .ok st) :
    st.total_tasks = st.pending_tasks + st.in_progress_tasks +
      st.completed_tasks + st.tasks_by_status_review +
      (workspace_tasks s wsid).countP (fun t => t.status = "cancelled") := by
  simp only [get_dashboard_stats] at h
  split at h
  · simp at h
  · split at h
    · simp at h
    · simp only [Except.ok.injEq] at h
      subst h
      dsimp only
      refine length_eq_sum_status_counts _ ?_
      intro t htw
      exact hstat t (List.mem_filter.mp htw).1

/-- Concrete workspace for the C5 witness: three tasks with statuses
`todo`, `review` and `cancelled`. -/
def C5store : Store :=
  { next_id := 9
    users := [{ id := 0, email := "o@x.com", password := "h", full_name := "O"
                is_blocked := false, last_login := 0 }]
    workspaces := [{ id := 1, name := "W", owner_id := 0, member_ids := [0]
                     member_roles := [(0, "admin")] }]
    projects := [{ id := 2, name := "P", description := none, workspace_id := 1
                   status := "in_progress", priority := "medium", progress := 0
                   deadline := none, assigned_to := [], tags := [], color := none
                   created_by := 0 }]
    tasks := [{ id := 3, title := "T1", description := none, project_id := 2
                status := "todo", priority := "medium", assigned_to := none
                deadline := none, tags := [], estimated_hours := none
                parent_task_id := none, created_by := 0 },
              { id := 4, title := "T2", description := none, project_id := 2
                status := "review", priority := "high", assigned_to := none
                deadline := none, tags := [], estimated_hours := none
                parent_task_id := none, created_by := 0 },
              { id := 5, title := "T3", description := none, project_id := 2
                status := "cancelled", priority := "low", assigned_to := none
                deadline := none, tags := [], estimated_hours := none
                parent_task_id := none, created_by := 0 }]
    subtasks := [], notes := [], tags := [], favorites := [], requests := []
    comments := [], files := [], time_entries := [], activities := []
    notifications := [] }

/-- Witness for C5 at a concrete workspace state. -/
theorem dashboard_totals_consistent_witness :
    ∃ st, get_dashboard_stats C5store 0 1 0 = .ok st ∧
      st.total_tasks = st.pending_tasks + st.in_progress_tasks +
        st.completed_tasks + st.tasks_by_status_review +
        (workspace_tasks C5store 1).countP (fun t => t.status = "cancelled") :=
  ⟨_, rfl, dashboard_totals_consistent C5store 0 1 0 _ (by decide) rfl⟩

/-! ## C8: a blocked user's token is rejected on every protected route -/

/-- Claim C8: For every store, every unexpired access token whose subject
resolves to a user with the blocked flag set, and every handler,
dependency resolution (`get_current_user`) rejects the request with 403
before any handler body runs. -/
theorem blocked_user_rejected_all_routes {α : Type} (s : Store) (tok : Token)
    (now : Int) (u : User)
    (hfind : s.users.find? (fun v => v.id = tok.sub) = some u)
    (hblocked : u.is_blocked = true)
    (htype : tok.token_type = "access")
    (hexp : now ≤ tok.exp) :
    ∀ handler : User → Store → Except Nat α,
      runProtected handler s tok now = .error 403 := by
  intro handler
  simp only [runProtected, get_current_user]
  rw [if_neg (by omega)]
  rw [if_neg (by simp [htype])]
  rw [hfind]
  simp [hblocked]

/-- Concrete store for the C8 witness: user 0 is blocked. -/
def C8store : Store :=
  { next_id := 1
    users := [{ id := 0, email := "b@x.com", password := "h", full_name := "B"
                is_blocked := true, last_login := 0 }]
    workspaces := [], projects := [], tasks := [], subtasks := [], notes := []
    tags := [], favorites := [], requests := [], comments := [], files := []
    time_entries := [], activities := [], notifications := [] }

/-- Witness for C8 at a concrete blocked user, token and route. -/
theorem blocked_user_rejected_all_routes_witness :
    runProtected (fun u _ => Except.ok u.id) C8store
      { sub := 0, token_type := "access", exp := 100 } 0 = .error 403 :=
  blocked_user_rejected_all_routes C8store
    { sub := 0, token_type := "access", exp := 100 } 0
    { id := 0, email := "b@x.com", password := "h", full_name := "B"
      is_blocked := true, last_login := 0 }
    (by rfl) rfl rfl (by decide) (fun u _ => Except.ok u.id)

/-! ## C10: signup creates exactly one default workspace -/

/-- Claim C10: A successful signup appends exactly one workspace to the
store; its owner is the new user, its member-id list is exactly the new
user, and its role map assigns the new user the `admin` role. -/
theorem signup_default_workspace (hs : HashScheme) (rl : RateLimiterState)
    (ip : String) (now : Int) (s : Store) (email password full_name : String)
    (r : AuthResponse) (rl' : RateLimiterState) (s' : Store)
    (h : signup hs rl ip now s email password full_name = (.ok r, rl', s')) :
    r.user_id = s.next_id ∧
    s'.workspaces = s.workspaces ++
      [{ id := r.user_id + 1, name := "Kişisel Çalışma Alanı"
         owner_id := r.user_id, member_ids := [r.user_id]
         member_roles := [(r.user_id, "admin")] }] := by
  simp only [signup] at h
  split at h
  · simp at h
  · split at h
    · simp at h
    · simp only [Prod.mk.injEq, Except.ok.injEq] at h
      obtain ⟨h1, -, h3⟩ := h
      subst h3
      subst h1
      exact ⟨rfl, rfl⟩

/-- Abstract hash scheme used by witnesses. -/
def witnessHash : HashScheme :=
  { hash := fun p => p ++ "#", verify := fun p h => h == p ++ "#" }

/-- Witness for C10: a concrete signup from the empty store. -/
theorem signup_default_workspace_witness :
    ∃ r rl' s',
      signup witnessHash RateLimiterState.init "9.9.9.9" 0 Store.empty
        "a@x.com" "Secure123A" "A" = (.ok r, rl', s') ∧
      (r.user_id = Store.empty.next_id ∧
       s'.workspaces = Store.empty.workspaces ++
        [{ id := r.user_id + 1, name := "Kişisel Çalışma Alanı"
           owner_id := r.user_id, member_ids := [r.user_id]
           member_roles := [(r.user_id, "admin")] }]) :=
  ⟨_, _, _, rfl, signup_default_workspace witnessHash RateLimiterState.init
    "9.9.9.9" 0 Store.empty "a@x.com" "Secure123A" "A" _ _ _ rfl⟩

/-! ## C6: login rate limiting blocks, then readmits after the block -/

theorem setKey_same {α : Type} (f : String → α) (k : String) (v : α) :
    setKey f k v k = v := by simp [setKey]

theorem clean_old_sub (now w : Int) (l : List Int) (x : Int)
    (h : x ∈ clean_old_requests now w l) : x ∈ l :=
  (List.mem_filter.mp h).1

theorem clean_old_nil (now w : Int) (l : List Int)
    (h : ∀ x ∈ l, x + w ≤ now) : clean_old_requests now w l = [] := by
  rw [clean_old_requests, List.filter_eq_nil_iff]
  intro x hx
  have := h x hx
  simp only [decide_eq_true_eq]
  omega

theorem is_blocked_of_none (s : RateLimiterState) (now : Int) (ip : String)
    (h : s.blocked_ips ip = none) : is_blocked s now ip = (false, s) := by
  simp [is_blocked, h]

/-- An unblocked IP under the general limit is admitted by the middleware
and its request timestamp is recorded. -/
theorem check_rate_limit_pass (s : RateLimiterState) (now : Int) (ip : String)
    (h : s.blocked_ips ip = none)
    (hlen : (clean_old_requests now RATE_LIMIT_WINDOW (s.requests ip)).length <
      RATE_LIMIT_REQUESTS) :
    check_rate_limit s now ip =
      (true, { s with requests :=
        (setKey
          (setKey s.requests ip (clean_old_requests now RATE_LIMIT_WINDOW (s.requests ip))) ip
          (clean_old_requests now RATE_LIMIT_WINDOW (s.requests ip) ++ [now])) }) := by
  simp only [check_rate_limit, is_blocked_of_none s now ip h]
  rw [if_neg (by omega)]

/-- At the login limit, `check_login_limit` refuses and blocks the IP for
300 seconds. -/
theorem check_login_limit_over (s : RateLimiterState) (now : Int) (ip : String)
    (h : LOGIN_RATE_LIMIT ≤
      (clean_old_requests now RATE_LIMIT_WINDOW (s.login_attempts ip)).length) :
    check_login_limit s now ip =
      (false, block_ip { s with login_attempts :=
        (setKey s.login_attempts ip
          (clean_old_requests now RATE_LIMIT_WINDOW (s.login_attempts ip))) } now ip 300) := by
  simp only [check_login_limit]
  rw [if_pos h]

/-- Claim C6: From any rate-limiter state whose recorded timestamps for the
IP lie in the past, once the login attempts within the sliding window
reach the login limit, the triggering login attempt is refused and the IP
is blocked until `t + 300`; every further login attempt during those 300
seconds is rejected (by the middleware) without changing the state, and
the first login attempt at or after `t + 300` passes both limiters
again. -/
theorem login_rate_limit_block_and_recovery (rl : RateLimiterState)
    (ip : String) (t : Int)
    (hatt : LOGIN_RATE_LIMIT ≤
      (clean_old_requests t RATE_LIMIT_WINDOW (rl.login_attempts ip)).length)
    (hpast_req : ∀ x ∈ rl.requests ip, x ≤ t)
    (hpast_att : ∀ x ∈ rl.login_attempts ip, x ≤ t)
    (hnb : rl.blocked_ips ip = none)
    (hreq : (clean_old_requests t RATE_LIMIT_WINDOW (rl.requests ip)).length <
      RATE_LIMIT_REQUESTS) :
    ∃ S : RateLimiterState,
      login_rate_gate rl t ip = (false, S) ∧
      S.blocked_ips ip = some (t + 300) ∧
      (∀ t', t ≤ t' → t' < t + 300 → login_rate_gate S t' ip = (false, S)) ∧
      (∀ t'', t + 300 ≤ t'' → (login_rate_gate S t'' ip).1 = true) := by
  have hcrl := check_rate_limit_pass rl t ip hnb hreq
  set rlA : RateLimiterState :=
    { rl with requests :=
      (setKey
        (setKey rl.requests ip (clean_old_requests t RATE_LIMIT_WINDOW (rl.requests ip))) ip
        (clean_old_requests t RATE_LIMIT_WINDOW (rl.requests ip) ++ [t])) } with hrlA
  have hattA : LOGIN_RATE_LIMIT ≤
      (clean_old_requests t RATE_LIMIT_WINDOW (rlA.login_attempts ip)).length := hatt
  have hcll := check_login_limit_over rlA t ip hattA
  refine ⟨block_ip { rlA with login_attempts :=
      (setKey rlA.login_attempts ip
        (clean_old_requests t RATE_LIMIT_WINDOW (rlA.login_attempts ip))) } t ip 300,
    ?_, ?_, ?_, ?_⟩
  · simp only [login_rate_gate, hcrl]
    exact hcll
  · simp [block_ip, setKey_same]
  · intro t' h1 h2
    have hb : (block_ip { rlA with login_attempts :=
        (setKey rlA.login_attempts ip
          (clean_old_requests t RATE_LIMIT_WINDOW (rlA.login_attempts ip))) } t ip
          300).blocked_ips ip = some (t + 300) := by
      simp [block_ip, setKey_same]
    simp only [login_rate_gate, check_rate_limit, is_blocked, hb]
    rw [if_pos h2]
  · intro t'' h3
    have hb : (block_ip { rlA with login_attempts :=
        (setKey rlA.login_attempts ip
          (clean_old_requests t RATE_LIMIT_WINDOW (rlA.login_attempts ip))) } t ip
          300).blocked_ips ip = some (t + 300) := by
      simp [block_ip, setKey_same]
    have hSreq : (block_ip { rlA with login_attempts :=
        (setKey rlA.login_attempts ip
          (clean_old_requests t RATE_LIMIT_WINDOW (rlA.login_attempts ip))) } t ip
          300).requests ip =
        clean_old_requests t RATE_LIMIT_WINDOW (rl.requests ip) ++ [t] := by
      simp [block_ip, hrlA, setKey_same]
    have hSatt : (block_ip { rlA with login_attempts :=
        (setKey rlA.login_attempts ip
          (clean_old_requests t RATE_LIMIT_WINDOW (rlA.login_attempts ip))) } t ip
          300).login_attempts ip =
        clean_old_requests t RATE_LIMIT_WINDOW (rl.login_attempts ip) := by
      simp [block_ip, hrlA, setKey_same]
    simp only [login_rate_gate, check_rate_limit, is_blocked, hb]
    rw [if_neg (by omega)]
    simp only [hSreq]
    have hclean1 : clean_old_requests t'' RATE_LIMIT_WINDOW
        (clean_old_requests t RATE_LIMIT_WINDOW (rl.requests ip) ++ [t]) = [] := by
      apply clean_old_nil
      intro x hx
      rcases List.mem_append.mp hx with hx1 | hx1
      · have := hpast_req x (clean_old_sub _ _ _ _ hx1)
        rw [RATE_LIMIT_WINDOW]
        omega
      · simp at hx1
        rw [RATE_LIMIT_WINDOW]
        omega
    rw [hclean1]
    rw [if_neg (by simp [RATE_LIMIT_REQUESTS])]
    simp only [check_login_limit, hSatt]
    have hclean2 : clean_old_requests t'' RATE_LIMIT_WINDOW
        (clean_old_requests t RATE_LIMIT_WINDOW (rl.login_attempts ip)) = [] := by
      apply clean_old_nil
      intro x hx
      have := hpast_att x (clean_old_sub _ _ _ _ hx)
      rw [RATE_LIMIT_WINDOW]
      omega
    rw [hclean2]
    rw [if_neg (by simp [LOGIN_RATE_LIMIT])]

/-- Rate-limiter state for the C6 witness: five login attempts at time 0
were already recorded for every IP. -/
def C6rl : RateLimiterState :=
  { requests := fun _ => [0, 0, 0, 0, 0]
    login_attempts := fun _ => [0, 0, 0, 0, 0]
    blocked_ips := fun _ => none }

/-- Witness for C6 at a concrete state and IP. -/
theorem login_rate_limit_block_and_recovery_witness :
    ∃ S : RateLimiterState,
      login_rate_gate C6rl 10 "1.2.3.4" = (false, S) ∧
      S.blocked_ips "1.2.3.4" = some (10 + 300) ∧
      (∀ t', 10 ≤ t' → t' < 10 + 300 → login_rate_gate S t' "1.2.3.4" = (false, S)) ∧
      (∀ t'', 10 + 300 ≤ t'' → (login_rate_gate S t'' "1.2.3.4").1 = true) :=
  login_rate_limit_block_and_recovery C6rl "1.2.3.4" 10 (by decide)
    (by decide) (by decide) rfl (by decide)

/-! ## C7: signup followed by login with the same credentials succeeds -/

/-- Under the login limit, `check_login_limit` admits the attempt and
records its timestamp. -/
theorem check_login_limit_under (s : RateLimiterState) (now : Int) (ip : String)
    (h : (clean_old_requests now RATE_LIMIT_WINDOW (s.login_attempts ip)).length <
      LOGIN_RATE_LIMIT) :
    check_login_limit s now ip =
      (true, { s with login_attempts :=
        (setKey
          (setKey s.login_attempts ip
            (clean_old_requests now RATE_LIMIT_WINDOW (s.login_attempts ip))) ip
          (clean_old_requests now RATE_LIMIT_WINDOW (s.login_attempts ip) ++ [now])) }) := by
  simp only [check_login_limit]
  rw [if_neg (by omega)]

/-- Claim C7: For every valid signup input (password satisfying the policy,
hash scheme whose verify accepts its own hash) on a store where the email
is not yet registered, signup succeeds, and a later login with the same
email and password (under the login rate limit) succeeds, returning an
unexpired access token whose subject is the signed-up user's id and which
`get_current_user` resolves to that user. -/
theorem signup_then_login_roundtrip (hs : HashScheme) (rl : RateLimiterState)
    (ip : String) (t1 : Int) (s : Store) (email password full_name : String)
    (hverify : hs.verify password (hs.hash password) = true)
    (hpolicy : validate_password password = true)
    (hrate1 : (clean_old_requests t1 RATE_LIMIT_WINDOW (rl.login_attempts ip)).length <
      LOGIN_RATE_LIMIT)
    (hnew : ∀ u ∈ s.users, u.email ≠ email.toLower)
    (hfresh : ∀ u ∈ s.users, u.id < s.next_id) :
    ∃ r rl1 s1, signup hs rl ip t1 s email password full_name = (.ok r, rl1, s1) ∧
      ∀ (rl2 : RateLimiterState) (ip2 : String) (t2 : Int),
        (clean_old_requests t2 RATE_LIMIT_WINDOW (rl2.login_attempts ip2)).length <
          LOGIN_RATE_LIMIT →
        ∃ r2 rl3 s2, login hs rl2 ip2 t2 s1 email password = (.ok r2, rl3, s2) ∧
          r2.user_id = r.user_id ∧
          r2.access_token.sub = r.user_id ∧
          r2.access_token.token_type = "access" ∧
          t2 < r2.access_token.exp ∧
          ∃ u, get_current_user s2 r2.access_token t2 = .ok u ∧ u.id = r.user_id := by
  have hcllA := check_login_limit_under rl t1 ip hrate1
  have hany : (s.users.any fun u => u.email = email.toLower) = false := by
    rw [List.any_eq_false]
    intro u hu
    simpa using hnew u hu
  have hsignup : signup hs rl ip t1 s email password full_name =
      (.ok { access_token := create_access_token s.next_id t1
             refresh_token := create_refresh_token s.next_id t1
             user_id := s.next_id },
       { rl with login_attempts :=
         (setKey
           (setKey rl.login_attempts ip
             (clean_old_requests t1 RATE_LIMIT_WINDOW (rl.login_attempts ip))) ip
           (clean_old_requests t1 RATE_LIMIT_WINDOW (rl.login_attempts ip) ++ [t1])) },
       { s with
         users := s.users ++
           [{ id := s.next_id, email := email.toLower, password := hs.hash password
              full_name := full_name, is_blocked := false, last_login := t1 }]
         workspaces := s.workspaces ++
           [{ id := s.next_id + 1, name := "Kişisel Çalışma Alanı"
              owner_id := s.next_id, member_ids := [s.next_id]
              member_roles := [(s.next_id, "admin")] }]
         next_id := s.next_id + 2 }) := by
    simp only [signup, hcllA]
    rw [if_neg (by simp [hany])]
  refine ⟨_, _, _, hsignup, ?_⟩
  intro rl2 ip2 t2 hrate2
  have hcllB := check_login_limit_under rl2 t2 ip2 hrate2
  have hnone : s.users.find? (fun u => u.email = email.toLower) = none := by
    rw [List.find?_eq_none]
    intro u hu
    simpa using hnew u hu
  have hfind : ((s.users ++
      [({ id := s.next_id, email := email.toLower, password := hs.hash password
          full_name := full_name, is_blocked := false, last_login := t1 } : User)]).find?
        (fun u : User => u.email = email.toLower)) =
      some { id := s.next_id, email := email.toLower, password := hs.hash password
             full_name := full_name, is_blocked := false, last_login := t1 } := by
    rw [List.find?_append, hnone]
    simp
  have hlogin : login hs rl2 ip2 t2
      ({ s with
         users := s.users ++
           [{ id := s.next_id, email := email.toLower, password := hs.hash password
              full_name := full_name, is_blocked := false, last_login := t1 }]
         workspaces := s.workspaces ++
           [{ id := s.next_id + 1, name := "Kişisel Çalışma Alanı"
              owner_id := s.next_id, member_ids := [s.next_id]
              member_roles := [(s.next_id, "admin")] }]
         next_id := s.next_id + 2 } : Store) email password =
      (.ok { access_token := create_access_token s.next_id t2
             refresh_token := create_refresh_token s.next_id t2
             user_id := s.next_id },
       { rl2 with login_attempts :=
         (setKey
           (setKey rl2.login_attempts ip2
             (clean_old_requests t2 RATE_LIMIT_WINDOW (rl2.login_attempts ip2))) ip2
           (clean_old_requests t2 RATE_LIMIT_WINDOW (rl2.login_attempts ip2) ++ [t2])) },
       { s with
         users := (s.users ++
           [({ id := s.next_id, email := email.toLower, password := hs.hash password
               full_name := full_name, is_blocked := false, last_login := t1 } : User)]).map
           (fun v : User => if v.id = s.next_id then { v with last_login := t2 } else v)
         workspaces := s.workspaces ++
           [{ id := s.next_id + 1, name := "Kişisel Çalışma Alanı"
              owner_id := s.next_id, member_ids := [s.next_id]
              member_roles := [(s.next_id, "admin")] }]
         next_id := s.next_id + 2 }) := by
    simp only [login, hcllB, hfind]
    rw [if_neg (by simp [hverify])]
    rw [if_neg (by simp)]
  refine ⟨_, _, _, hlogin, rfl, rfl, rfl, ?_, ?_⟩
  · simp only [create_access_token, ACCESS_TOKEN_EXPIRE]
    omega
  · have hfind2 : ((s.users ++
        [({ id := s.next_id, email := email.toLower, password := hs.hash password
            full_name := full_name, is_blocked := false, last_login := t1 } : User)]).find?
          (fun u : User => u.id = s.next_id)) =
        some { id := s.next_id, email := email.toLower, password := hs.hash password
               full_name := full_name, is_blocked := false, last_login := t1 } := by
      rw [List.find?_append]
      have : s.users.find? (fun u => u.id = s.next_id) = none := by
        rw [List.find?_eq_none]
        intro u hu
        have := hfresh u hu
        simp only [decide_eq_true_eq]
        omega
      rw [this]
      simp
    have hmap := find?_map_of_pred_preserved
      (s.users ++
        [({ id := s.next_id, email := email.toLower, password := hs.hash password
            full_name := full_name, is_blocked := false, last_login := t1 } : User)])
      (fun u : User => u.id = s.next_id)
      (fun v : User => if v.id = s.next_id then { v with last_login := t2 } else v)
      _ ?_ hfind2
    · refine ⟨{ id := s.next_id, email := email.toLower,
                password := hs.hash password, full_name := full_name,
                is_blocked := false, last_login := t2 }, ?_, ?_⟩
      · simp only [get_current_user]
        rw [if_neg (by simp only [create_access_token, ACCESS_TOKEN_EXPIRE]; omega)]
        rw [if_neg (by simp [create_access_token])]
        simp only [create_access_token]
        rw [hmap]
        simp
      · simp
    · intro x
      by_cases hx : x.id = s.next_id
      · simp only [if_pos hx]
      · simp only [if_neg hx]

/-- Witness for C7: a concrete signup/login pair from the empty store. -/
theorem signup_then_login_roundtrip_witness :
    ∃ r rl1 s1,
      signup witnessHash RateLimiterState.init "9.9.9.9" 0 Store.empty
        "a@x.com" "Secure123A" "A" = (.ok r, rl1, s1) ∧
      ∀ (rl2 : RateLimiterState) (ip2 : String) (t2 : Int),
        (clean_old_requests t2 RATE_LIMIT_WINDOW (rl2.login_attempts ip2)).length <
          LOGIN_RATE_LIMIT →
        ∃ r2 rl3 s2,
          login witnessHash rl2 ip2 t2 s1 "a@x.com" "Secure123A" = (.ok r2, rl3, s2) ∧
          r2.user_id = r.user_id ∧
          r2.access_token.sub = r.user_id ∧
          r2.access_token.token_type = "access" ∧
          t2 < r2.access_token.exp ∧
          ∃ u, get_current_user s2 r2.access_token t2 = .ok u ∧ u.id = r.user_id :=
  signup_then_login_roundtrip witnessHash RateLimiterState.init "9.9.9.9" 0
    Store.empty "a@x.com" "Secure123A" "A" (by rfl) (by decide) (by decide)
    (by decide) (by decide)

/-! ## C9: workspace membership invariant over the reachable states -/

theorem setRole_mem (l : List (Nat × String)) (k : Nat) (v : String)
    (p : Nat × String) (h : p ∈ setRole l k v) : p ∈ l ∨ p.1 = k := by
  unfold setRole at h
  split at h
  · rcases List.mem_map.mp h with ⟨q, hq, hpq⟩
    by_cases hqk : q.1 = k
    · rw [if_pos hqk] at hpq
      right
      rw [← hpq]
    · rw [if_neg hqk] at hpq
      left
      rw [← hpq]
      exact hq
  · rcases List.mem_append.mp h with h1 | h1
    · exact Or.inl h1
    · right
      simp at h1
      rw [h1]

/-- In a workspace list with unique ids, any member with the looked-up id
is the `find?` result. -/
theorem find_unique_by_id (l : List Workspace) (i : Nat) (a b : Workspace)
    (hnd : (l.map (fun w => w.id)).Nodup)
    (ha : l.find? (fun w => w.id = i) = some a)
    (hb : b ∈ l) (hbi : b.id = i) : b = a := by
  have ha1 : a ∈ l := List.mem_of_find?_eq_some ha
  have ha2 : a.id = i := by simpa using List.find?_some ha
  exact List.inj_on_of_nodup_map hnd hb ha1 (by rw [hbi, ha2])

/-- Induction invariant: every workspace satisfies the membership
invariant, workspace ids are below the id counter, and workspace ids are
pairwise distinct. -/
def StoreWsInv (s : Store) : Prop :=
  (∀ w ∈ s.workspaces, WorkspaceInv w) ∧
  (∀ w ∈ s.workspaces, w.id < s.next_id) ∧
  (s.workspaces.map (fun w => w.id)).Nodup

theorem reachable_store_ws_inv (s : Store) (h : ReachableStore s) :
    StoreWsInv s := by
  induction h with
  | init =>
      refine ⟨?_, ?_, ?_⟩ <;> simp [Store.empty]
  | signup_step s hs rl ip now email password full_name r rl' s' hreach hstep ih =>
      obtain ⟨ih1, ih2, ih3⟩ := ih
      simp only [signup] at hstep
      split at hstep
      · simp at hstep
      · split at hstep
        · simp at hstep
        · simp only [Prod.mk.injEq, Except.ok.injEq] at hstep
          obtain ⟨-, -, h3⟩ := hstep
          subst h3
          refine ⟨?_, ?_, ?_⟩
          · intro w hw
            rcases List.mem_append.mp hw with hw1 | hw1
            · exact ih1 w hw1
            · simp only [List.mem_singleton] at hw1
              subst hw1
              constructor
              · simp
              · intro p hp
                simp only [List.mem_singleton] at hp
                subst hp
                simp
          · intro w hw
            rcases List.mem_append.mp hw with hw1 | hw1
            · have := ih2 w hw1
              dsimp only
              omega
            · simp only [List.mem_singleton] at hw1
              subst hw1
              dsimp only
              omega
          · dsimp only
            rw [List.map_append, List.nodup_append]
            refine ⟨ih3, List.nodup_singleton _, ?_⟩
            intro x hx hx2
            simp only [List.map_cons, List.map_nil, List.mem_singleton] at hx2
            rcases List.mem_map.mp hx with ⟨w, hw, hwx⟩
            have := ih2 w hw
            omega
  | create_workspace_step s uid wc w s' hreach hstep ih =>
      obtain ⟨ih1, ih2, ih3⟩ := ih
      simp only [create_workspace, log_activity, Prod.mk.injEq, Except.ok.injEq] at hstep
      obtain ⟨-, h2⟩ := hstep
      subst h2
      refine ⟨?_, ?_, ?_⟩
      · intro w' hw'
        rcases List.mem_append.mp hw' with hw1 | hw1
        · exact ih1 w' hw1
        · simp only [List.mem_singleton] at hw1
          subst hw1
          constructor
          · simp
          · intro p hp
            simp only [List.mem_singleton] at hp
            subst hp
            simp
      · intro w' hw'
        rcases List.mem_append.mp hw' with hw1 | hw1
        · have := ih2 w' hw1
          dsimp only
          omega
        · simp only [List.mem_singleton] at hw1
          subst hw1
          dsimp only
          omega
      · dsimp only
        rw [List.map_append, List.nodup_append]
        refine ⟨ih3, List.nodup_singleton _, ?_⟩
        intro x hx hx2
        simp only [List.map_cons, List.map_nil, List.mem_singleton] at hx2
        rcases List.mem_map.mp hx with ⟨w', hw', hwx⟩
        have := ih2 w' hw'
        omega
  | invite_member_step s uid workspace_id email role s' hreach hstep ih =>
      obtain ⟨ih1, ih2, ih3⟩ := ih
      simp only [invite_member] at hstep
      split at hstep
      · simp at hstep
      · rename_i ws0 hws0
        split at hstep
        · simp at hstep
        · split at hstep
          · simp at hstep
          · rename_i target htarget
            split at hstep
            · simp at hstep
            · rename_i hnotmem
              simp only [Prod.mk.injEq, true_and] at hstep
              subst hstep
              rw [StoreWsInv]
              rw [log_activity_workspaces, send_notification_workspaces]
              have hid_pres : ∀ x : Workspace,
                  ((if x.id = workspace_id then
                    { x with member_ids := x.member_ids ++ [target.id]
                             member_roles := setRole x.member_roles target.id role }
                  else x) : Workspace).id = x.id := by
                intro x
                by_cases hx : x.id = workspace_id
                · rw [if_pos hx]
                · rw [if_neg hx]
              refine ⟨?_, ?_, ?_⟩
              · intro w' hw'
                rcases List.mem_map.mp hw' with ⟨w, hw, hwx⟩
                subst hwx
                by_cases hid : w.id = workspace_id
                · rw [if_pos hid]
                  have hw_eq : w = ws0 :=
                    find_unique_by_id s.workspaces workspace_id ws0 w ih3 hws0 hw hid
                  subst hw_eq
                  obtain ⟨hown, hkeys⟩ := ih1 w hw
                  constructor
                  · exact List.mem_append.mpr (Or.inl hown)
                  · intro p hp
                    rcases setRole_mem _ _ _ p hp with hp1 | hp1
                    · exact List.mem_append.mpr (Or.inl (hkeys p hp1))
                    · rw [hp1]
                      simp
                · rw [if_neg hid]
                  exact ih1 w hw
              · intro w' hw'
                rcases List.mem_map.mp hw' with ⟨w, hw, hwx⟩
                subst hwx
                rw [hid_pres w]
                have := ih2 w hw
                simp only [log_activity, send_notification]
                omega
              · rw [List.map_map]
                have : ((fun w : Workspace => w.id) ∘ (fun w : Workspace =>
                    if w.id = workspace_id then
                      { w with member_ids := w.member_ids ++ [target.id]
                               member_roles := setRole w.member_roles target.id role }
                    else w)) = fun w : Workspace => w.id := by
                  funext x
                  exact hid_pres x
                rw [this]
                exact ih3
  | remove_member_step s uid workspace_id member_id s' hreach hstep ih =>
      obtain ⟨ih1, ih2, ih3⟩ := ih
      simp only [remove_member] at hstep
      split at hstep
      · simp at hstep
      · rename_i ws0 hws0
        split at hstep
        · simp at hstep
        · rename_i howner
          split at hstep
          · simp at hstep
          · simp only [Prod.mk.injEq, true_and] at hstep
            subst hstep
            rw [StoreWsInv]
            have hid_pres : ∀ x : Workspace,
                ((if x.id = workspace_id then
                  { x with
                    member_ids := x.member_ids.filter (fun m => decide (m ≠ member_id))
                    member_roles := x.member_roles.filter (fun p => decide (p.1 ≠ member_id)) }
                else x) : Workspace).id = x.id := by
              intro x
              by_cases hx : x.id = workspace_id
              · rw [if_pos hx]
              · rw [if_neg hx]
            refine ⟨?_, ?_, ?_⟩
            · intro w' hw'
              rcases List.mem_map.mp hw' with ⟨w, hw, hwx⟩
              subst hwx
              by_cases hid : w.id = workspace_id
              · rw [if_pos hid]
                have hw_eq : w = ws0 :=
                  find_unique_by_id s.workspaces workspace_id ws0 w ih3 hws0 hw hid
                subst hw_eq
                obtain ⟨hown, hkeys⟩ := ih1 w hw
                constructor
                · apply List.mem_filter.mpr
                  refine ⟨hown, ?_⟩
                  simpa using howner
                · intro p hp
                  have hp1 := List.mem_filter.mp hp
                  apply List.mem_filter.mpr
                  refine ⟨hkeys p hp1.1, hp1.2⟩
              · rw [if_neg hid]
                exact ih1 w hw
            · intro w' hw'
              rcases List.mem_map.mp hw' with ⟨w, hw, hwx⟩
              subst hwx
              rw [hid_pres w]
              have := ih2 w hw
              dsimp only
              omega
            · rw [List.map_map]
              have : ((fun w : Workspace => w.id) ∘ (fun w : Workspace =>
                  if w.id = workspace_id then
                    { w with
                      member_ids := w.member_ids.filter (fun m => decide (m ≠ member_id))
                      member_roles := w.member_roles.filter (fun p => decide (p.1 ≠ member_id)) }
                  else w)) = fun w : Workspace => w.id := by
                funext x
                exact hid_pres x
              rw [this]
              exact ih3

/-- Claim C9: In every store reachable by the workspace operations (the
empty store, signup's default workspace, `create_workspace`,
`invite_member`, `remove_member`), every workspace's member-id list
contains its owner, and every key of its member-role map is in the
member-id list. -/
theorem workspace_membership_invariant (s : Store) (h : ReachableStore s) :
    ∀ w ∈ s.workspaces, w.owner_id ∈ w.member_ids ∧
      ∀ p ∈ w.member_roles, p.1 ∈ w.member_ids :=
  fun w hw => (reachable_store_ws_inv s h).1 w hw

/-- Witness for C9: in the store reached by one `create_workspace` call
from the empty store, the created workspace's owner is in its member
list. -/
theorem workspace_membership_invariant_witness :
    ({ id := 0, name := "W", owner_id := 0, member_ids := [0]
       member_roles := [(0, "admin")] } : Workspace).owner_id ∈
      ({ id := 0, name := "W", owner_id := 0, member_ids := [0]
         member_roles := [(0, "admin")] } : Workspace).member_ids :=
  (workspace_membership_invariant (create_workspace Store.empty 0 { name := "W" }).2
    (ReachableStore.create_workspace_step Store.empty 0 { name := "W" }
      { id := 0, name := "W", owner_id := 0, member_ids := [0]
        member_roles := [(0, "admin")] }
      (create_workspace Store.empty 0 { name := "W" }).2
      ReachableStore.init rfl)
    { id := 0, name := "W", owner_id := 0, member_ids := [0]
      member_roles := [(0, "admin")] }
    (by decide)).1

end AICO
